import Mathlib

/-!
Verification of the ExpressTS request pipeline: the Firebase auth gate,
the AppError model, the user controller, and the global error responder.
Strings manipulated character-wise by the code are embedded as List Char;
JavaScript truthiness of possibly-absent values is made explicit.
-/

/-- The ASCII double-quote character, written via its code point. -/
def dquoteChar : Char := Char.ofNat 34

/-- The ASCII apostrophe character, written via its code point. -/
def squoteChar : Char := Char.ofNat 39

/-- Decimal rendering of a number, as the JS template literal of a statusCode
produces it (most significant digit first). -/
def jsNumToString (n : Nat) : List Char := Nat.toDigits 10 n

/-- Model of the AppError class of src/utils/AppError.ts: message, statusCode,
derived status and the operational flag. -/
structure AppError where
  message : String
  statusCode : Nat
  status : String
  isOperational : Bool
deriving DecidableEq, Repr

/-- The AppError constructor: status is derived by testing whether the decimal
rendering of statusCode starts with the digit 4, and isOperational is true. -/
def AppError.new (message : String) (statusCode : Nat) : AppError :=
  { message := message
    statusCode := statusCode
    status := if List.isPrefixOf ['4'] (jsNumToString statusCode) then "fail" else "error"
    isOperational := true }

/-- An arbitrary error value reaching the global error handler, as the
untyped err argument of globalErrorHandler: fields the handler inspects,
each optional when JavaScript would allow it to be absent. -/
structure JsErr where
  message : String
  statusCode : Option Nat
  status : Option String
  name : Option String
  code : Option Nat
  errmsg : Option String
  errors : List String
  path : Option String
  value : Option String
  isOperational : Bool
  stack : String
deriving DecidableEq, Repr

/-- View of an AppError as a value flowing through the error handler chain:
its own fields are set, and the provider-specific fields (name, code, errmsg,
errors, path, value) are absent. -/
def AppError.asJsErr (a : AppError) : JsErr :=
  { message := a.message
    statusCode := some a.statusCode
    status := some a.status
    name := none
    code := none
    errmsg := none
    errors := []
    path := none
    value := none
    isOperational := a.isOperational
    stack := "" }

/-- JavaScript a or-else b on a possibly absent number: absent and 0 are falsy. -/
def jsOrNat (v : Option Nat) (d : Nat) : Nat :=
  match v with
  | none => d
  | some n => if n = 0 then d else n

/-- JavaScript a or-else b on a possibly absent string: absent and "" are falsy. -/
def jsOrStr (v : Option String) (d : String) : String :=
  match v with
  | none => d
  | some s => if s = "" then d else s

/-- JavaScript template interpolation of a possibly absent string value. -/
def jsShow (v : Option String) : String :=
  match v with
  | none => "undefined"
  | some s => s

/-- Whether a character is one of the two quote characters of the character
class in the duplicate-field regex. -/
def isQuoteChar (c : Char) : Bool := c == dquoteChar || c == squoteChar

/-- First match of the duplicate-field regex (a quote, a lazily repeated
escaped-or-plain character, the same quote again) in a string: the earliest
position holding a quote character that occurs again later, matched up to its
first reoccurrence; none when the string has no quoted substring. -/
def firstQuotedMatch : List Char → Option (List Char)
  | [] => none
  | c :: rest =>
    if isQuoteChar c && rest.contains c then
      some (c :: (rest.takeWhile (fun d => d != c) ++ [c]))
    else firstQuotedMatch rest

/-- handleCastError: a 400 AppError naming the offending path and value. -/
def handleCastError (err : JsErr) : AppError :=
  AppError.new ("Invalid " ++ jsShow err.path ++ ": " ++ jsShow err.value) 400

/-- handleDuplicateFieldsError: extracts the first quoted value of errmsg with
the regex and builds a 400 AppError; none models the TypeError thrown when
errmsg is absent or the regex match is null and indexing it fails. -/
def handleDuplicateFieldsError (err : JsErr) : Option AppError :=
  match err.errmsg with
  | none => none
  | some m =>
    match firstQuotedMatch m.data with
    | none => none
    | some v =>
      some (AppError.new
        ("Duplicate field value: " ++ String.mk v ++ ". Please use another value!") 400)

/-- handleValidationError: a 400 AppError joining the per-field messages. -/
def handleValidationError (err : JsErr) : AppError :=
  AppError.new ("Invalid input data. " ++ String.intercalate ". " err.errors) 400

/-- handleJWTError: a fixed 401 AppError for invalid tokens. -/
def handleJWTError : AppError :=
  AppError.new "Invalid token. Please log in again." 401

/-- handleJWTExpiredError: a fixed 401 AppError for expired tokens. -/
def handleJWTExpiredError : AppError :=
  AppError.new "Your token has expired! Please log in again." 401

/-- A JSON error response body: status and message always, the error object
and the stack only when the sender includes them. -/
structure ErrorBody where
  status : String
  message : String
  error : Option JsErr
  stack : Option String
deriving DecidableEq, Repr

/-- An HTTP response: status code and JSON body. -/
structure HttpResponse where
  code : Nat
  body : ErrorBody
deriving DecidableEq, Repr

/-- sendErrorDev: responds with the status code and a body carrying status,
the full error object, the message and the stack. -/
def sendErrorDev (err : JsErr) : HttpResponse :=
  { code := err.statusCode.getD 500
    body := { status := err.status.getD "error"
              message := err.message
              error := some err
              stack := some err.stack } }

/-- sendErrorProd: an operational error is sent with its status code, status
and message only; any other error is sent as a generic 500. -/
def sendErrorProd (err : JsErr) : HttpResponse :=
  if err.isOperational then
    { code := err.statusCode.getD 500
      body := { status := err.status.getD "error"
                message := err.message
                error := none
                stack := none } }
  else
    { code := 500
      body := { status := "error"
                message := "Something went wrong"
                error := none
                stack := none } }

/-- The two defaulting assignments at the top of globalErrorHandler:
statusCode or-else 500, status or-else "error". -/
def normalizeErr (err : JsErr) : JsErr :=
  { err with
    statusCode := some (jsOrNat err.statusCode 500)
    status := some (jsOrStr err.status "error") }

/-- The production branch of globalErrorHandler: the chain of reclassifying
ifs (the object spread and the message reassignment are a record copy in this
model), then sendErrorProd; none models the uncaught TypeError thrown out of
handleDuplicateFieldsError, in which case no response is emitted. -/
def sendProdPipeline (err : JsErr) : Option HttpResponse :=
  let e1 := if err.name == some "CastError" then (handleCastError err).asJsErr else err
  match (if e1.code == some 11000
         then (handleDuplicateFieldsError e1).map AppError.asJsErr
         else some e1) with
  | none => none
  | some e2 =>
    let e3 := if e2.name == some "ValidationError" then (handleValidationError e2).asJsErr else e2
    let e4 := if e3.name == some "JsonWebTokenError" then handleJWTError.asJsErr else e3
    let e5 := if e4.name == some "TokenExpiredError" then handleJWTExpiredError.asJsErr else e4
    some (sendErrorProd e5)

/-- globalErrorHandler: normalize statusCode and status, read the deployment
mode, and dispatch to the production pipeline or the development sender. -/
def globalErrorHandler (nodeEnv : Option String) (err : JsErr) : Option HttpResponse :=
  let err := normalizeErr err
  let isProduction := nodeEnv == some "production"
  if isProduction then sendProdPipeline err else some (sendErrorDev err)

/-- JavaScript String.split with a non-empty separator, on characters, with
explicit fuel (one unit per consumed character, so fuel = length suffices):
at each position, if the separator starts here, emit the piece gathered so far
and continue after the separator, else keep the character in the current piece. -/
def jsSplitGo (sep : List Char) : Nat → List Char → List (List Char)
  | _, [] => [[]]
  | 0, s => [s]
  | fuel + 1, c :: rest =>
    if !sep.isEmpty && sep.isPrefixOf (c :: rest) then
      [] :: jsSplitGo sep fuel (List.drop sep.length (c :: rest))
    else
      match jsSplitGo sep fuel rest with
      | [] => [[c]]
      | h :: t => (c :: h) :: t

/-- JavaScript String.split with a non-empty separator. -/
def jsSplit (sep s : List Char) : List (List Char) := jsSplitGo sep s.length s

/-- The characters of the scheme token "Bearer " including its space. -/
def bearerSep : List Char := "Bearer ".data

/-- Whether sep occurs as a contiguous substring, by scanning each position. -/
def occursIn (sep : List Char) : List Char → Bool
  | [] => sep.isEmpty
  | c :: rest => sep.isPrefixOf (c :: rest) || occursIn sep rest

/-- The credential the middleware passes to the verifier: element 1 of the
header split on the scheme token (the element exists whenever the header
starts with the scheme token). -/
def extractToken (header : List Char) : List Char :=
  (jsSplit bearerSep header).getD 1 []

/-- The decoded identity returned by the verifier: at minimum the subject id. -/
structure DecodedIdToken where
  uid : String
deriving DecidableEq, Repr

/-- Outcome of the auth middleware on one request: an emitted 401 response
with its error and message strings, or a call to next with the identity
attached to the request context. -/
inductive AuthOutcome where
  | respond (code : Nat) (error : String) (message : String)
  | next (user : DecodedIdToken)
deriving DecidableEq, Repr

/-- firebaseAuthMiddleware: reject a missing or non-Bearer header with 401;
otherwise split out the token and call the verifier, whose rejection
(Except.error), empty result (Except.ok none) or identity (Except.ok some)
decide the outcome; a rejection lands in the catch block. -/
def firebaseAuthMiddleware
    (verify : List Char → Except String (Option DecodedIdToken)) :
    Option (List Char) → AuthOutcome
  | none => .respond 401 "Unauthorized" "Missing or invalid authorization token"
  | some authHeader =>
    if bearerSep.isPrefixOf authHeader then
      match verify (extractToken authHeader) with
      | .error _ => .respond 401 "Unauthorized" "Invalid authorization token"
      | .ok none => .respond 401 "Unauthorized" "Invalid authorization token"
      | .ok (some decodedToken) => .next decodedToken
    else .respond 401 "Unauthorized" "Missing or invalid authorization token"

/-- JavaScript truthiness of a possibly absent string: absent and "" are falsy. -/
def jsTruthyStr (v : Option String) : Bool :=
  match v with
  | none => false
  | some s => !(s == "")

/-- Outcome of a route handler: an error forwarded to next, or a success
response; the success response of updateUserProfile is the 200 body with
status and the data.user object holding uid, name and email. -/
inductive HandlerOutcome where
  | nextErr (e : AppError)
  | success (code : Nat) (status : String) (uid : Option String)
      (name : String) (email : String)
deriving DecidableEq, Repr

/-- updateUserProfile: if the name or the email body field is falsy, forward a
400 AppError to next; else respond 200 with status success and a user object
of the attached identity uid (absent when no user is attached) and the two
echoed fields (in the success branch both fields are present, so getD is
exact). -/
def updateUserProfile (user : Option DecodedIdToken)
    (name email : Option String) : HandlerOutcome :=
  if !jsTruthyStr name || !jsTruthyStr email then
    .nextErr (AppError.new "Please provide name and email" 400)
  else
    .success 200 "success" (user.map DecodedIdToken.uid) (name.getD "") (email.getD "")

/-- The 404 catch-all of index.ts: an AppError whose message interpolates the
original URL (the apostrophe of the message is written via its code point). -/
def notFoundError (originalUrl : String) : AppError :=
  AppError.new
    ("Can" ++ String.mk [squoteChar] ++ "t find " ++ originalUrl ++ " on this server!")
    404

/-- Concrete error value: statusCode and status absent, nothing else set. -/
def bareErr : JsErr :=
  { message := "boom"
    statusCode := none
    status := none
    name := none
    code := none
    errmsg := none
    errors := []
    path := none
    value := none
    isOperational := false
    stack := "trace" }

set_option maxRecDepth 100000 in
/-- Claim C6: for every AppError constructed with a statusCode in 100 to 599,
the derived status equals "fail" exactly when the statusCode lies in the
interval from 400 inclusive to 500 exclusive, and "error" otherwise. -/
theorem appError_status_derivation (msg : String) (n : Nat)
    (h1 : 100 ≤ n) (h2 : n ≤ 599) :
    ((AppError.new msg n).status = "fail" ↔ (400 ≤ n ∧ n < 500)) ∧
    ((AppError.new msg n).status = "error" ↔ ¬ (400 ≤ n ∧ n < 500)) := by
  have key : ∀ m : Nat, m < 600 → (100 ≤ m →
      (List.isPrefixOf ['4'] (jsNumToString m) = true ↔ (400 ≤ m ∧ m < 500))) := by
    decide
  have hk := key n (by omega) h1
  cases hb : List.isPrefixOf ['4'] (jsNumToString n) with
  | true =>
      have := hk.mp hb
      simp [AppError.new, hb]
      omega
  | false =>
      have : ¬ (400 ≤ n ∧ n < 500) := fun hc => by
        have := hk.mpr hc
        rw [hb] at this
        exact Bool.false_ne_true this
      simp [AppError.new, hb]
      omega

/-- Witness for C6: at statusCode 404 the derived status is "fail", and at 302
it is not. -/
theorem appError_status_derivation_witness :
    ((AppError.new "m" 404).status = "fail") ∧ ((AppError.new "m" 302).status = "error") := by
  refine ⟨((appError_status_derivation "m" 404 (by decide) (by decide)).1).mpr (by decide), ?_⟩
  exact ((appError_status_derivation "m" 302 (by decide) (by decide)).2).mpr (by decide)

theorem jsSplitGo_ne_nil (sep : List Char) (fuel : Nat) (s : List Char) :
    jsSplitGo sep fuel s ≠ [] := by
  induction fuel generalizing s with
  | zero => cases s <;> simp [jsSplitGo]
  | succ f ih =>
    cases s with
    | nil => simp [jsSplitGo]
    | cons c rest =>
      simp only [jsSplitGo]
      split
      · simp
      · cases hrec : jsSplitGo sep f rest <;> simp [hrec]

theorem occursIn_nil_false (sep : List Char) (hsep : sep ≠ []) :
    occursIn sep [] = false := by
  cases sep with
  | nil => exact absurd rfl hsep
  | cons c cs => simp [occursIn, List.isEmpty]

theorem jsSplitGo_headD (sep : List Char) (hsep : sep ≠ []) :
    ∀ fuel s, s.length ≤ fuel →
      ((jsSplitGo sep fuel s).headD [] = s ↔ occursIn sep s = false) := by
  have hne : sep.isEmpty = false := by
    cases sep with
    | nil => exact absurd rfl hsep
    | cons c cs => rfl
  intro fuel
  induction fuel with
  | zero =>
    intro s hs
    have : s = [] := List.eq_nil_of_length_eq_zero (Nat.le_zero.mp hs)
    subst this
    simp [jsSplitGo, occursIn_nil_false sep hsep]
  | succ f ih =>
    intro s hs
    cases s with
    | nil => simp [jsSplitGo, occursIn_nil_false sep hsep]
    | cons c rest =>
      have hlen : rest.length ≤ f := by
        simpa using Nat.succ_le_succ_iff.mp (by simpa using hs)
      cases hp : sep.isPrefixOf (c :: rest) with
      | true =>
        simp [jsSplitGo, hne, hp, occursIn]
      | false =>
        have hrecne := jsSplitGo_ne_nil sep f rest
        cases hrec : jsSplitGo sep f rest with
        | nil => exact absurd hrec hrecne
        | cons hh tt =>
          have hih := ih rest hlen
          rw [hrec] at hih
          simp only [List.headD] at hih
          simp [jsSplitGo, hne, hp, hrec, occursIn, hih]

theorem isPrefixOf_append_self (sep t : List Char) :
    sep.isPrefixOf (sep ++ t) = true := by
  induction sep with
  | nil => simp [List.isPrefixOf]
  | cons c cs ih => simp [List.isPrefixOf]

theorem jsSplit_append (sep t : List Char) (hsep : sep ≠ []) :
    ∃ f, t.length ≤ f ∧ jsSplit sep (sep ++ t) = [] :: jsSplitGo sep f t := by
  cases sep with
  | nil => exact absurd rfl hsep
  | cons c cs =>
    refine ⟨cs.length + t.length, Nat.le_add_left _ _, ?_⟩
    have hlen : ((c :: cs) ++ t).length = (cs.length + t.length) + 1 := by
      simp only [List.length_append, List.length_cons]
      omega
    have hpre := isPrefixOf_append_self (c :: cs) t
    have hdrop : List.drop (c :: cs).length ((c :: cs) ++ t) = t := List.drop_left _ _
    calc jsSplit (c :: cs) ((c :: cs) ++ t)
        = jsSplitGo (c :: cs) (((c :: cs) ++ t).length) ((c :: cs) ++ t) := rfl
      _ = [] :: jsSplitGo (c :: cs) (cs.length + t.length) t := by
          rw [hlen]
          show jsSplitGo (c :: cs) ((cs.length + t.length) + 1) (c :: (cs ++ t)) = _
          rw [jsSplitGo]
          simp only [List.isEmpty, Bool.not_false, Bool.true_and]
          rw [show (c :: (cs ++ t)) = ((c :: cs) ++ t) from rfl, hpre, hdrop]
          simp

/-- Claim C1: a request whose Authorization header is absent or does not start
with the scheme token, or whose credential the verifier rejects or resolves to
no identity, gets a 401 response whose message is the missing-or-invalid
string in the first two cases and the invalid string in the others, and the
downstream handler (the next outcome) is never invoked. -/
theorem firebaseAuthMiddleware_unauthorized
    (verify : List Char → Except String (Option DecodedIdToken))
    (h : Option (List Char))
    (hbad : h = none ∨ ∃ s, h = some s ∧
      (bearerSep.isPrefixOf s = false ∨
       (∃ e, verify (extractToken s) = Except.error e) ∨
       verify (extractToken s) = Except.ok none)) :
    ((h = none ∨ ∃ s, h = some s ∧ bearerSep.isPrefixOf s = false) →
        firebaseAuthMiddleware verify h
          = AuthOutcome.respond 401 "Unauthorized" "Missing or invalid authorization token") ∧
    (∀ s, h = some s → bearerSep.isPrefixOf s = true →
        ((∃ e, verify (extractToken s) = Except.error e) ∨
          verify (extractToken s) = Except.ok none) →
        firebaseAuthMiddleware verify h
          = AuthOutcome.respond 401 "Unauthorized" "Invalid authorization token") ∧
    (∀ d, firebaseAuthMiddleware verify h ≠ AuthOutcome.next d) := by
  refine ⟨?_, ?_, ?_⟩
  · rintro (rfl | ⟨s, rfl, hpre⟩)
    · rfl
    · simp [firebaseAuthMiddleware, hpre]
  · rintro s rfl hpre (⟨e, hv⟩ | hv) <;> simp [firebaseAuthMiddleware, hpre, hv]
  · intro d hn
    rcases hbad with rfl | ⟨s, rfl, hcase⟩
    · simp [firebaseAuthMiddleware] at hn
    · rcases hcase with hpre | ⟨e, hv⟩ | hv
      · simp [firebaseAuthMiddleware, hpre] at hn
      · by_cases hp : bearerSep.isPrefixOf s = true
        · simp [firebaseAuthMiddleware, hp, hv] at hn
        · simp [firebaseAuthMiddleware, Bool.eq_false_iff.mpr hp] at hn
      · by_cases hp : bearerSep.isPrefixOf s = true
        · simp [firebaseAuthMiddleware, hp, hv] at hn
        · simp [firebaseAuthMiddleware, Bool.eq_false_iff.mpr hp] at hn

/-- Witness for C1: with an absent header the middleware responds 401 with the
missing-or-invalid message and never reaches the handler. -/
theorem firebaseAuthMiddleware_unauthorized_witness :
    firebaseAuthMiddleware (fun _ => Except.ok none) none
      = AuthOutcome.respond 401 "Unauthorized" "Missing or invalid authorization token" ∧
    (∀ d, firebaseAuthMiddleware (fun _ => Except.ok none) none ≠ AuthOutcome.next d) := by
  have h := firebaseAuthMiddleware_unauthorized (fun _ => Except.ok none) none (Or.inl rfl)
  exact ⟨h.1 (Or.inl rfl), h.2.2⟩

/-- Claim C2: when the header starts with the scheme token and the verifier
accepts the extracted credential with a non-empty identity, the middleware
calls next with exactly that identity attached, so the handler observes an
identity whose subject id equals the decoded subject id. -/
theorem firebaseAuthMiddleware_success
    (verify : List Char → Except String (Option DecodedIdToken))
    (s : List Char) (d : DecodedIdToken)
    (hpre : bearerSep.isPrefixOf s = true)
    (hver : verify (extractToken s) = Except.ok (some d)) :
    firebaseAuthMiddleware verify (some s) = AuthOutcome.next d ∧
    ∃ u, firebaseAuthMiddleware verify (some s) = AuthOutcome.next u ∧ u.uid = d.uid := by
  have hmain : firebaseAuthMiddleware verify (some s) = AuthOutcome.next d := by
    simp [firebaseAuthMiddleware, hpre, hver]
  exact ⟨hmain, d, hmain, rfl⟩

/-- Witness for C2: a verifier accepting exactly the credential abc with
subject id u1 leads the middleware to attach that identity. -/
theorem firebaseAuthMiddleware_success_witness :
    firebaseAuthMiddleware
      (fun t => if t = "abc".data then Except.ok (some ⟨"u1"⟩) else Except.error "bad")
      (some "Bearer abc".data) = AuthOutcome.next ⟨"u1"⟩ := by
  exact (firebaseAuthMiddleware_success _ "Bearer abc".data ⟨"u1"⟩
    (by decide) (by rfl)).1

/-- Counterexample for C8: for the header Bearer aBearer b the substring after
the scheme token is aBearer b, but the middleware extracts and passes only a
to the verifier (split truncates at the second occurrence of the token). -/
theorem extractToken_counterexample :
    extractToken "Bearer aBearer b".data = "a".data ∧
    "a".data ≠ "aBearer b".data ∧
    firebaseAuthMiddleware (fun tok => Except.ok (some ⟨String.mk tok⟩))
        (some "Bearer aBearer b".data) = AuthOutcome.next ⟨"a"⟩ := by
  exact ⟨by decide, by decide, by decide⟩

/-- Claim C8 as amended: for a header formed of the scheme token followed by a
token, the extracted credential equals the full substring after the token
exactly when that substring does not itself contain the scheme token
(otherwise split truncates it at the next occurrence). -/
theorem extractToken_amended (t : List Char) :
    extractToken (bearerSep ++ t) = t ↔ occursIn bearerSep t = false := by
  obtain ⟨f, hf, hsplit⟩ := jsSplit_append bearerSep t (by decide)
  unfold extractToken
  rw [hsplit, List.getD_cons_succ]
  cases hrec : jsSplitGo bearerSep f t with
  | nil => exact absurd hrec (jsSplitGo_ne_nil bearerSep f t)
  | cons hh tt =>
    have hhead := jsSplitGo_headD bearerSep (by decide) f t hf
    rw [hrec] at hhead
    simpa using hhead

/-- Witness for C8 amended: for the token abc, which does not contain the
scheme token, extraction returns the full substring after the prefix. -/
theorem extractToken_amended_witness :
    extractToken (bearerSep ++ "abc".data) = "abc".data :=
  (extractToken_amended "abc".data).mpr (by decide)

/-- Claim C3: in production an operational error is answered with its own
status code and a body of exactly status and message; a non-operational error
is answered 500 with the generic body; neither production body carries the
stack or the error object, while the development body carries both. -/
theorem sendError_env_shapes (err : JsErr) :
    (∀ c st, err.statusCode = some c → err.status = some st → err.isOperational = true →
      sendErrorProd err = ⟨c, ⟨st, err.message, none, none⟩⟩) ∧
    (err.isOperational = false →
      sendErrorProd err = ⟨500, ⟨"error", "Something went wrong", none, none⟩⟩) ∧
    (sendErrorProd err).body.error = none ∧
    (sendErrorProd err).body.stack = none ∧
    (sendErrorDev err).body.error = some err ∧
    (sendErrorDev err).body.stack = some err.stack := by
  refine ⟨?_, ?_, ?_, ?_, rfl, rfl⟩
  · rintro c st hc hst hop
    simp [sendErrorProd, hop, hc, hst]
  · intro hop
    simp [sendErrorProd, hop]
  · cases hop : err.isOperational <;> simp [sendErrorProd, hop]
  · cases hop : err.isOperational <;> simp [sendErrorProd, hop]

/-- Witness for C3: the non-operational example error is sent as a generic 500
in production, and its development response carries its stack. -/
theorem sendError_env_shapes_witness :
    sendErrorProd bareErr = ⟨500, ⟨"error", "Something went wrong", none, none⟩⟩ ∧
    (sendErrorDev bareErr).body.stack = some "trace" := by
  have h := sendError_env_shapes bareErr
  exact ⟨h.2.1 rfl, h.2.2.2.2.2⟩

/-- Claim C5: for every error received, an absent statusCode is resolved to
500 and an absent status to the error string, each independently; the
normalized error always carries a resolved (present) statusCode and status,
every response is built from the normalized error, and outside production
the emitted response carries exactly the resolved values. -/
theorem globalErrorHandler_normalizes (err : JsErr) (env : Option String) :
    (err.statusCode = none → (normalizeErr err).statusCode = some 500) ∧
    (err.status = none → (normalizeErr err).status = some "error") ∧
    (normalizeErr err).statusCode = some (jsOrNat err.statusCode 500) ∧
    (normalizeErr err).status = some (jsOrStr err.status "error") ∧
    globalErrorHandler env err =
      (if env == some "production" then sendProdPipeline (normalizeErr err)
       else some (sendErrorDev (normalizeErr err))) ∧
    (env ≠ some "production" →
      globalErrorHandler env err
        = some ⟨jsOrNat err.statusCode 500,
                ⟨jsOrStr err.status "error", err.message,
                 some (normalizeErr err), some err.stack⟩⟩) := by
  refine ⟨?_, ?_, rfl, rfl, rfl, ?_⟩
  · intro h1
    simp [normalizeErr, h1, jsOrNat]
  · intro h2
    simp [normalizeErr, h2, jsOrStr]
  · intro hne
    have henv : (env == some "production") = false := beq_eq_false_iff_ne.mpr hne
    simp [globalErrorHandler, henv, sendErrorDev, normalizeErr]

/-- Witness for C5: an error with only its statusCode absent resolves it to
500, one with only its status absent resolves it to the error string, and
outside production the response for the doubly absent example carries the
resolved values. -/
theorem globalErrorHandler_normalizes_witness :
    (normalizeErr { bareErr with status := some "ok" }).statusCode = some 500 ∧
    (normalizeErr { bareErr with statusCode := some 404 }).status = some "error" ∧
    globalErrorHandler none bareErr
      = some ⟨500, ⟨"error", "boom", some (normalizeErr bareErr), some "trace"⟩⟩ := by
  refine ⟨(globalErrorHandler_normalizes { bareErr with status := some "ok" } none).1 rfl,
    (globalErrorHandler_normalizes { bareErr with statusCode := some 404 } none).2.1 rfl,
    ?_⟩
  exact (globalErrorHandler_normalizes bareErr none).2.2.2.2.2 (by decide)

/-- Counterexample for C4: an error named JsonWebTokenError that also carries
the duplicate-key code 11000 is reclassified by the duplicate-field branch
first, so in production it is answered 400 with the duplicate-field message
rather than 401 with the invalid-token message. -/
theorem globalErrorHandler_jwt_counterexample :
    globalErrorHandler (some "production")
        { bareErr with name := some "JsonWebTokenError", code := some 11000,
                       errmsg := some "dup \"k\" key" }
      = some ⟨400, ⟨"fail", "Duplicate field value: \"k\". Please use another value!",
                    none, none⟩⟩ ∧
    globalErrorHandler (some "production")
        { bareErr with name := some "JsonWebTokenError", code := some 11000,
                       errmsg := some "dup \"k\" key" }
      ≠ some ⟨401, ⟨"fail", "Invalid token. Please log in again.", none, none⟩⟩ := by
  exact ⟨by decide, by decide⟩

/-- Claim C4 as amended: in production an error named JsonWebTokenError is
answered 401 with the fixed invalid-token message, and one named
TokenExpiredError is answered 401 with the fixed expired-token message,
provided the error does not also carry the duplicate-key code 11000 (whose
reclassification runs first). -/
theorem globalErrorHandler_jwt_amended (err : JsErr)
    (hcode : err.code ≠ some 11000) :
    (err.name = some "JsonWebTokenError" →
      globalErrorHandler (some "production") err
        = some ⟨401, ⟨"fail", "Invalid token. Please log in again.", none, none⟩⟩) ∧
    (err.name = some "TokenExpiredError" →
      globalErrorHandler (some "production") err
        = some ⟨401, ⟨"fail", "Your token has expired! Please log in again.",
                      none, none⟩⟩) := by
  have hc : (err.code == some 11000) = false := beq_eq_false_iff_ne.mpr hcode
  constructor <;> intro hname <;>
    simp [globalErrorHandler, sendProdPipeline, normalizeErr, hname, hc,
      handleJWTError, handleJWTExpiredError, AppError.new, AppError.asJsErr,
      sendErrorProd, jsNumToString] <;> decide

/-- Witness for C4 amended: a JsonWebTokenError without the duplicate-key code
is answered 401 with the invalid-token message in production. -/
theorem globalErrorHandler_jwt_amended_witness :
    globalErrorHandler (some "production")
        { bareErr with name := some "JsonWebTokenError" }
      = some ⟨401, ⟨"fail", "Invalid token. Please log in again.", none, none⟩⟩ := by
  exact (globalErrorHandler_jwt_amended
    { bareErr with name := some "JsonWebTokenError" } (by decide)).1 rfl

/-- Counterexample for C7: with both body fields present but name the empty
string, the handler forwards the 400 error instead of responding 200
(JavaScript treats the empty string as falsy in the required-field check). -/
theorem updateUserProfile_counterexample :
    updateUserProfile (some ⟨"u1"⟩) (some "") (some "ann@x.com")
      = HandlerOutcome.nextErr (AppError.new "Please provide name and email" 400) ∧
    updateUserProfile (some ⟨"u1"⟩) (some "") (some "ann@x.com")
      ≠ HandlerOutcome.success 200 "success" (some "u1") "" "ann@x.com" := by
  exact ⟨by decide, by decide⟩

/-- Claim C7 as amended: on an authenticated update request, a missing or
empty (falsy) name or email field makes the handler forward a 400 AppError
naming the requirement and never produce a success response; when both fields
are present and non-empty it responds 200 with status success and a user
object of the attached subject id and the echoed fields. -/
theorem updateUserProfile_amended (u : DecodedIdToken) (name email : Option String) :
    ((name = none ∨ name = some "" ∨ email = none ∨ email = some "") →
      updateUserProfile (some u) name email
        = HandlerOutcome.nextErr (AppError.new "Please provide name and email" 400) ∧
      (AppError.new "Please provide name and email" 400).statusCode = 400 ∧
      ∀ c st uu nn me, updateUserProfile (some u) name email
        ≠ HandlerOutcome.success c st uu nn me) ∧
    (∀ n m, name = some n → n ≠ "" → email = some m → m ≠ "" →
      updateUserProfile (some u) name email
        = HandlerOutcome.success 200 "success" (some u.uid) n m) := by
  constructor
  · intro hmiss
    have hout : updateUserProfile (some u) name email
        = HandlerOutcome.nextErr (AppError.new "Please provide name and email" 400) := by
      rcases hmiss with rfl | rfl | rfl | rfl
      · simp [updateUserProfile, jsTruthyStr]
      · simp [updateUserProfile, jsTruthyStr]
      · simp [updateUserProfile, jsTruthyStr]
      · simp [updateUserProfile, jsTruthyStr]
    refine ⟨hout, rfl, ?_⟩
    intro c st uu nn me heq
    rw [hout] at heq
    exact HandlerOutcome.noConfusion heq
  · rintro n m rfl hn rfl hm
    have hn' : (n == "") = false := beq_eq_false_iff_ne.mpr hn
    have hm' : (m == "") = false := beq_eq_false_iff_ne.mpr hm
    simp [updateUserProfile, jsTruthyStr, hn', hm']

/-- Witness for C7 amended: valid name and email with subject id u1 produce
the 200 success response echoing both fields. -/
theorem updateUserProfile_amended_witness :
    updateUserProfile (some ⟨"u1"⟩) (some "Ann") (some "ann@x.com")
      = HandlerOutcome.success 200 "success" (some "u1") "Ann" "ann@x.com" := by
  exact (updateUserProfile_amended ⟨"u1"⟩ (some "Ann") (some "ann@x.com")).2
    "Ann" "ann@x.com" rfl (by decide) rfl (by decide)

/-- Claim C9: an unmatched path raises a 404 operational AppError with derived
status fail and the message interpolating the original URL; at the URL
/does-not-exist the message reads, character by character, Can(apostrophe)t
find /does-not-exist on this server!. -/
theorem notFoundError_shape (url : String) :
    (notFoundError url).statusCode = 404 ∧
    (notFoundError url).status = "fail" ∧
    (notFoundError url).isOperational = true ∧
    (notFoundError url).message
      = "Can" ++ String.mk [squoteChar] ++ "t find " ++ url ++ " on this server!" ∧
    (notFoundError "/does-not-exist").message.data
      = ['C', 'a', 'n', squoteChar, 't', ' ', 'f', 'i', 'n', 'd', ' ', '/', 'd', 'o',
         'e', 's', '-', 'n', 'o', 't', '-', 'e', 'x', 'i', 's', 't', ' ', 'o', 'n',
         ' ', 't', 'h', 'i', 's', ' ', 's', 'e', 'r', 'v', 'e', 'r', '!'] := by
  refine ⟨rfl, by rfl, rfl, rfl, by decide⟩

